import Mathlib

/-
  Verification of the shader-loader pipeline (shader-loader.js).

  The file shallowly embeds the orchestration layer of the loader:
  the per-tick pass graph and feedback blit (startRenderLoop),
  render-target creation and release (createFramebuffers, createTexture),
  the resize handler (handleResize), the per-pass uniform computation
  (renderPass), the transition fade law (handleTransition), the
  fallback path selection (init, fallbackToCSS), and the finalization
  path (complete, destroy).  The GLSL shader bodies are opaque data:
  buffer contents are modelled symbolically as a free term algebra.
-/

namespace ShaderLoader

/-! ## Pass graph and per-tick dataflow (startRenderLoop, lines 1198-1223) -/

/-- Symbolic content of a render target.  The shader bodies are opaque,
so a pass output is a free constructor applied to the contents it read. -/
inductive Content
  | blank
  | passA (history : Content)
  | passB (working : Content)
  | image (reduced : Content) (working : Content)
  deriving DecidableEq, Repr

/-- The three named off-screen targets of the pipeline. -/
inductive TargetId
  | bufferA
  | bufferB
  | bufferAPrev
  deriving DecidableEq, Repr

/-- The three compiled programs. -/
inductive ProgId
  | progBufferA
  | progBufferB
  | progImage
  deriving DecidableEq, Repr

/-- One GPU submission of the tick: a full-screen pass (output none means
the visible canvas) or the feedback blit. -/
inductive RenderOp
  | pass (prog : ProgId) (inputs : List TargetId) (output : Option TargetId)
  | blit (src : TargetId) (dst : TargetId)
  deriving DecidableEq, Repr

/-- The mutable state read and written by one tick of the render loop. -/
structure PipelineState where
  bufferA : Content
  bufferB : Content
  bufferAPrev : Content
  canvas : Content
  frameCount : Nat
  isRunning : Bool
  deriving DecidableEq, Repr

/-- One tick of the render loop (the body of loop in startRenderLoop):
guard on isRunning, Pass A (bufferAPrev to bufferA), Pass B (bufferA to
bufferB), Pass Image (bufferB and bufferA to the canvas), the feedback
blit of bufferA into bufferAPrev, then frameCount increment.  Returns
the new state together with the ordered trace of GPU submissions. -/
def tick (s : PipelineState) : PipelineState × List RenderOp :=
  if !s.isRunning then (s, [])
  else
    let s1 := { s with bufferA := Content.passA s.bufferAPrev }
    let s2 := { s1 with bufferB := Content.passB s1.bufferA }
    let s3 := { s2 with canvas := Content.image s2.bufferB s2.bufferA }
    let s4 := { s3 with bufferAPrev := s3.bufferA }
    ({ s4 with frameCount := s4.frameCount + 1 },
     [RenderOp.pass ProgId.progBufferA [TargetId.bufferAPrev] (some TargetId.bufferA),
      RenderOp.pass ProgId.progBufferB [TargetId.bufferA] (some TargetId.bufferB),
      RenderOp.pass ProgId.progImage [TargetId.bufferB, TargetId.bufferA] none,
      RenderOp.blit TargetId.bufferA TargetId.bufferAPrev])

/-- The state of the pipeline right after a successful init: every
target blank (createTexture uploads an all-black byte array), frame 0,
scheduler running. -/
def initState : PipelineState :=
  { bufferA := Content.blank
    bufferB := Content.blank
    bufferAPrev := Content.blank
    canvas := Content.blank
    frameCount := 0
    isRunning := true }

/-- A running state with arbitrary non-blank history, for witnesses. -/
def runningExample : PipelineState :=
  { bufferA := Content.passA Content.blank
    bufferB := Content.blank
    bufferAPrev := Content.passA Content.blank
    canvas := Content.blank
    frameCount := 7
    isRunning := true }

/-- A stopped state, for witnesses. -/
def stoppedExample : PipelineState :=
  { runningExample with isRunning := false }

/-- Claim C1: on every tick while the scheduler is running, exactly three
passes execute in fixed order (Pass A reads bufferAPrev and writes
bufferA, Pass B reads bufferA and writes bufferB, Pass Image reads
bufferB and bufferA and writes the canvas) and after Pass Image the
working target is copied into the history target before the tick ends. -/
theorem c1_tick_fixed_order (s : PipelineState) (h : s.isRunning = true) :
    (tick s).2 =
      [RenderOp.pass ProgId.progBufferA [TargetId.bufferAPrev] (some TargetId.bufferA),
       RenderOp.pass ProgId.progBufferB [TargetId.bufferA] (some TargetId.bufferB),
       RenderOp.pass ProgId.progImage [TargetId.bufferB, TargetId.bufferA] none,
       RenderOp.blit TargetId.bufferA TargetId.bufferAPrev] ∧
    (tick s).1.bufferA = Content.passA s.bufferAPrev ∧
    (tick s).1.bufferB = Content.passB (Content.passA s.bufferAPrev) ∧
    (tick s).1.canvas =
      Content.image (Content.passB (Content.passA s.bufferAPrev)) (Content.passA s.bufferAPrev) ∧
    (tick s).1.bufferAPrev = (tick s).1.bufferA := by
  simp [tick, h]

/-- Witness for C1 at a concrete running state. -/
theorem c1_tick_fixed_order_witness :
    (tick runningExample).1.bufferA = Content.passA runningExample.bufferAPrev ∧
    (tick runningExample).1.bufferAPrev = (tick runningExample).1.bufferA :=
  ⟨(c1_tick_fixed_order runningExample rfl).2.1,
   (c1_tick_fixed_order runningExample rfl).2.2.2.2⟩

/-- Claim C8: while running, frameCount increases by exactly 1 per tick;
a tick observed while stopped is a no-op (state unchanged, no GPU work). -/
theorem c8_frameCount_monotone (s : PipelineState) :
    (s.isRunning = true → (tick s).1.frameCount = s.frameCount + 1) ∧
    (s.isRunning = false → tick s = (s, [])) := by
  constructor <;> intro h <;> simp [tick, h]

/-- Witness for C8 at a concrete running state and a concrete stopped state. -/
theorem c8_frameCount_monotone_witness :
    (tick runningExample).1.frameCount = runningExample.frameCount + 1 ∧
    tick stoppedExample = (stoppedExample, []) :=
  ⟨(c8_frameCount_monotone runningExample).1 rfl,
   (c8_frameCount_monotone stoppedExample).2 rfl⟩

/-- Claim C5, counterexample: after the first tick completes, the history
target does NOT equal the blank initial state, because the feedback blit
runs inside the tick and has already copied Pass A output into it. -/
theorem c5_counterexample : (tick initState).1.bufferAPrev ≠ Content.blank := by
  decide

/-- Claim C5, amended: during the first tick Pass A reads the blank
initial history, so after the tick the working target holds Pass A
output applied to blank (non-blank), and the history target equals the
working target (the feedback copy ran), not the blank initial state. -/
theorem c5_first_tick_feedback :
    (tick initState).1.bufferA = Content.passA Content.blank ∧
    (tick initState).1.bufferA ≠ Content.blank ∧
    (tick initState).1.bufferAPrev = (tick initState).1.bufferA := by
  decide

/-! ## Render targets (createFramebuffers, createTexture, lines 991-1051) -/

/-- A GL texture object: its handle id and allocation dimensions
(createTexture uploads a w*h*4 all-black byte array at creation). -/
structure TexObj where
  id : Nat
  width : Nat
  height : Nat
  deriving DecidableEq, Repr

/-- One GL resource-management call issued by createFramebuffers. -/
inductive GLOp
  | deleteTexture (id : Nat)
  | deleteFramebuffer (id : Nat)
  | createTexture (id : Nat)
  | createFramebuffer (id : Nat)
  deriving DecidableEq, Repr

/-- Whether an op releases a previous-generation resource. -/
def GLOp.isDelete : GLOp → Bool
  | .deleteTexture _ => true
  | .deleteFramebuffer _ => true
  | _ => false

/-- The GL allocator: a fresh-handle counter plus the sets of live
texture and framebuffer handles. -/
structure GLRes where
  nextId : Nat
  liveTex : List Nat
  liveFB : List Nat
  deriving DecidableEq, Repr

/-- gl.createTexture plus the black upload of createTexture(name, w, h). -/
def glCreateTexture (g : GLRes) (w h : Nat) : TexObj × GLRes × List GLOp :=
  (⟨g.nextId, w, h⟩,
   { g with nextId := g.nextId + 1, liveTex := g.nextId :: g.liveTex },
   [GLOp.createTexture g.nextId])

/-- gl.createFramebuffer with the colour attachment already validated. -/
def glCreateFramebuffer (g : GLRes) : Nat × GLRes × List GLOp :=
  (g.nextId,
   { g with nextId := g.nextId + 1, liveFB := g.nextId :: g.liveFB },
   [GLOp.createFramebuffer g.nextId])

/-- gl.deleteTexture on an optional handle (deleting a missing object is
a no-op in WebGL). -/
def glDeleteTexOpt (g : GLRes) (t : Option TexObj) : GLRes × List GLOp :=
  match t with
  | some x => ({ g with liveTex := g.liveTex.filter (fun j => j != x.id) },
               [GLOp.deleteTexture x.id])
  | none => (g, [])

/-- gl.deleteFramebuffer on an optional handle. -/
def glDeleteFBOpt (g : GLRes) (f : Option Nat) : GLRes × List GLOp :=
  match f with
  | some i => ({ g with liveFB := g.liveFB.filter (fun j => j != i) },
               [GLOp.deleteFramebuffer i])
  | none => (g, [])

/-- The named targets of the loader: three textures and their three
framebuffers, plus the GL allocator state. -/
structure TargetSet where
  gl : GLRes
  texA : Option TexObj
  texB : Option TexObj
  texAPrev : Option TexObj
  fbA : Option Nat
  fbB : Option Nat
  fbAPrev : Option Nat
  deriving DecidableEq, Repr

/-- createFramebuffers(w, h): if a previous generation exists (guarded on
textures.bufferA), delete its three textures then its three
framebuffers; then create bufferA at (w, h), bufferB at
(max 1 (w / 3), max 1 (h / 3)), bufferAPrev at (w, h), and their three
framebuffers, in source order.  Returns the new target set and the
ordered trace of GL calls. -/
def createFramebuffers (s : TargetSet) (w h : Nat) : TargetSet × List GLOp :=
  let cleanup : GLRes × List GLOp :=
    if s.texA.isSome then
      let d1 := glDeleteTexOpt s.gl s.texA
      let d2 := glDeleteTexOpt d1.1 s.texB
      let d3 := glDeleteTexOpt d2.1 s.texAPrev
      let d4 := glDeleteFBOpt d3.1 s.fbA
      let d5 := glDeleteFBOpt d4.1 s.fbB
      let d6 := glDeleteFBOpt d5.1 s.fbAPrev
      (d6.1, d1.2 ++ d2.2 ++ d3.2 ++ d4.2 ++ d5.2 ++ d6.2)
    else (s.gl, [])
  let cA := glCreateTexture cleanup.1 w h
  let cB := glCreateTexture cA.2.1 (max 1 (w / 3)) (max 1 (h / 3))
  let cP := glCreateTexture cB.2.1 w h
  let fA := glCreateFramebuffer cP.2.1
  let fB := glCreateFramebuffer fA.2.1
  let fP := glCreateFramebuffer fB.2.1
  ({ gl := fP.2.1
     texA := some cA.1
     texB := some cB.1
     texAPrev := some cP.1
     fbA := some fA.1
     fbB := some fB.1
     fbAPrev := some fP.1 },
   cleanup.2 ++ cA.2.2 ++ cB.2.2 ++ cP.2.2 ++ fA.2.2 ++ fB.2.2 ++ fP.2.2)

/-- The target set before the very first build. -/
def emptyTargets : TargetSet :=
  { gl := { nextId := 0, liveTex := [], liveFB := [] }
    texA := none, texB := none, texAPrev := none
    fbA := none, fbB := none, fbAPrev := none }

/-- A concrete built generation, for witnesses: the result of a first
build at 9 x 6. -/
def builtTargets : TargetSet := (createFramebuffers emptyTargets 9 6).1

/-- Claim C2: after a rebuild at (w, h), the working and history targets
have dimensions (w, h), the reduced target has dimensions
(max 1 (w / 3), max 1 (h / 3)), every previous-generation texture and
framebuffer is deleted before any replacement is allocated (the trace is
six deletes followed by six creates), and no previous-generation handle
remains live. -/
theorem c2_rebuild_dimensions_and_release (s : TargetSet) (w h : Nat)
    (tA tB tP : TexObj) (fa fb fp : Nat)
    (hA : s.texA = some tA) (hB : s.texB = some tB) (hP : s.texAPrev = some tP)
    (hfa : s.fbA = some fa) (hfb : s.fbB = some fb) (hfp : s.fbAPrev = some fp)
    (hbA : tA.id < s.gl.nextId) (hbB : tB.id < s.gl.nextId) (hbP : tP.id < s.gl.nextId)
    (hba : fa < s.gl.nextId) (hbb : fb < s.gl.nextId) (hbp : fp < s.gl.nextId) :
    (createFramebuffers s w h).1.texA = some ⟨s.gl.nextId, w, h⟩ ∧
    (createFramebuffers s w h).1.texB =
      some ⟨s.gl.nextId + 1, max 1 (w / 3), max 1 (h / 3)⟩ ∧
    (createFramebuffers s w h).1.texAPrev = some ⟨s.gl.nextId + 2, w, h⟩ ∧
    (createFramebuffers s w h).2 =
      [GLOp.deleteTexture tA.id, GLOp.deleteTexture tB.id, GLOp.deleteTexture tP.id,
       GLOp.deleteFramebuffer fa, GLOp.deleteFramebuffer fb, GLOp.deleteFramebuffer fp,
       GLOp.createTexture s.gl.nextId, GLOp.createTexture (s.gl.nextId + 1),
       GLOp.createTexture (s.gl.nextId + 2),
       GLOp.createFramebuffer (s.gl.nextId + 3), GLOp.createFramebuffer (s.gl.nextId + 4),
       GLOp.createFramebuffer (s.gl.nextId + 5)] ∧
    (∃ dels crs,
      (createFramebuffers s w h).2 = dels ++ crs ∧
      (∀ op ∈ dels, op.isDelete = true) ∧
      (∀ op ∈ crs, op.isDelete = false) ∧
      GLOp.deleteTexture tA.id ∈ dels ∧ GLOp.deleteTexture tB.id ∈ dels ∧
      GLOp.deleteTexture tP.id ∈ dels ∧ GLOp.deleteFramebuffer fa ∈ dels ∧
      GLOp.deleteFramebuffer fb ∈ dels ∧ GLOp.deleteFramebuffer fp ∈ dels) ∧
    tA.id ∉ (createFramebuffers s w h).1.gl.liveTex ∧
    tB.id ∉ (createFramebuffers s w h).1.gl.liveTex ∧
    tP.id ∉ (createFramebuffers s w h).1.gl.liveTex ∧
    fa ∉ (createFramebuffers s w h).1.gl.liveFB ∧
    fb ∉ (createFramebuffers s w h).1.gl.liveFB ∧
    fp ∉ (createFramebuffers s w h).1.gl.liveFB := by
  rcases s with ⟨g, oA, oB, oP, oa, ob, oc⟩
  dsimp only at hA hB hP hfa hfb hfp hbA hbB hbP hba hbb hbp ⊢
  subst hA hB hP hfa hfb hfp
  simp only [createFramebuffers, glDeleteTexOpt, glDeleteFBOpt, glCreateTexture,
    glCreateFramebuffer, Option.isSome_some, if_true, List.cons_append, List.nil_append,
    List.append_nil]
  refine ⟨by trivial, by trivial, by trivial, by trivial,
    ⟨[GLOp.deleteTexture tA.id, GLOp.deleteTexture tB.id, GLOp.deleteTexture tP.id,
      GLOp.deleteFramebuffer fa, GLOp.deleteFramebuffer fb, GLOp.deleteFramebuffer fp],
     [GLOp.createTexture g.nextId, GLOp.createTexture (g.nextId + 1),
      GLOp.createTexture (g.nextId + 2),
      GLOp.createFramebuffer (g.nextId + 3), GLOp.createFramebuffer (g.nextId + 4),
      GLOp.createFramebuffer (g.nextId + 5)],
     rfl, by simp [GLOp.isDelete], by simp [GLOp.isDelete],
     by simp, by simp, by simp, by simp, by simp, by simp⟩,
    ?_, ?_, ?_, ?_, ?_, ?_⟩
  all_goals simp
  all_goals omega

/-- Witness for C2: rebuild the concrete first generation at 8 x 6. -/
theorem c2_rebuild_dimensions_and_release_witness :
    (createFramebuffers builtTargets 8 6).1.texA = some ⟨builtTargets.gl.nextId, 8, 6⟩ ∧
    (createFramebuffers builtTargets 8 6).1.texB =
      some ⟨builtTargets.gl.nextId + 1, max 1 (8 / 3), max 1 (6 / 3)⟩ :=
  ⟨(c2_rebuild_dimensions_and_release builtTargets 8 6 ⟨0, 9, 6⟩ ⟨1, 3, 2⟩ ⟨2, 9, 6⟩ 3 4 5
      (by decide) (by decide) (by decide) (by decide) (by decide) (by decide)
      (by decide) (by decide) (by decide) (by decide) (by decide) (by decide)).1,
   (c2_rebuild_dimensions_and_release builtTargets 8 6 ⟨0, 9, 6⟩ ⟨1, 3, 2⟩ ⟨2, 9, 6⟩ 3 4 5
      (by decide) (by decide) (by decide) (by decide) (by decide) (by decide)
      (by decide) (by decide) (by decide) (by decide) (by decide) (by decide)).2.1⟩

/-! ## Resize handling (handleResize, lines 208-231) -/

/-- The loader state read and written by handleResize: the canvas and
its integer dimensions, the transition flag, the GL context presence,
the logo position generation (bumped by updateLogoPosition) and the
target set. -/
structure LoaderView where
  hasCanvas : Bool
  isTransitioning : Bool
  canvasW : Int
  canvasH : Int
  hasGL : Bool
  logoGen : Nat
  targets : TargetSet
  deriving DecidableEq, Repr

/-- handleResize: return unchanged when the canvas is missing or the
transition flag is set; floor the window dimensions; return unchanged
when they equal the canvas dimensions; otherwise resize the canvas,
update the logo position and rebuild the framebuffers when a GL context
exists. -/
def handleResize (winW winH : ℚ) (s : LoaderView) : LoaderView :=
  if !s.hasCanvas || s.isTransitioning then s
  else
    let newW : Int := ⌊winW⌋
    let newH : Int := ⌊winH⌋
    if s.canvasW = newW ∧ s.canvasH = newH then s
    else
      let s1 := { s with canvasW := newW, canvasH := newH, logoGen := s.logoGen + 1 }
      if s1.hasGL then
        { s1 with targets := (createFramebuffers s1.targets newW.toNat newH.toNat).1 }
      else s1

/-- A concrete loader view during the running phase, for witnesses. -/
def exampleView : LoaderView :=
  { hasCanvas := true
    isTransitioning := false
    canvasW := 800
    canvasH := 600
    hasGL := true
    logoGen := 0
    targets := builtTargets }

/-- Claim C10: when the floored window dimensions equal the current
canvas dimensions, handleResize changes nothing: the whole loader state,
canvas dimensions and target set included, is returned unchanged and no
rebuild occurs. -/
theorem c10_resize_noop (winW winH : ℚ) (s : LoaderView)
    (hc : s.hasCanvas = true) (ht : s.isTransitioning = false)
    (hw : ⌊winW⌋ = s.canvasW) (hh : ⌊winH⌋ = s.canvasH) :
    handleResize winW winH s = s := by
  simp [handleResize, hc, ht, hw, hh]

/-- Witness for C10 at concrete window dimensions matching the canvas. -/
theorem c10_resize_noop_witness :
    handleResize 800 600 exampleView = exampleView :=
  c10_resize_noop 800 600 exampleView rfl rfl (by norm_num [exampleView])
    (by norm_num [exampleView])

/-! ## Per-pass uniforms (renderPass, lines 1151-1196) -/

/-- The fixed uniform bundle one pass receives: iTime, iResolution and
iFrame. -/
structure Uniforms where
  iTime : ℚ
  iResW : ℚ
  iResH : ℚ
  iFrame : Nat
  deriving DecidableEq, Repr

/-- The uniform values set by one renderPass call: iTime is recomputed
from the live clock inside the call, iResolution from the canvas
dimensions, iFrame from frameCount. -/
def passUniforms (startTime now : ℚ) (w h : Nat) (frame : Nat) : Uniforms :=
  { iTime := (now - startTime) / 1000
    iResW := (w : ℚ)
    iResH := (h : ℚ)
    iFrame := frame }

/-- The three uniform bundles of one tick: renderPass runs three times
and reads the clock afresh each time (clock n is the reading taken by
the n-th pass of the tick). -/
def tickUniforms (startTime : ℚ) (w h frame : Nat) (clock : Nat → ℚ) :
    Uniforms × Uniforms × Uniforms :=
  (passUniforms startTime (clock 0) w h frame,
   passUniforms startTime (clock 1) w h frame,
   passUniforms startTime (clock 2) w h frame)

/-- Claim C9, counterexample: with a clock that advances by 1 ms between
passes, the first and second passes of the same tick receive different
iTime values, so the three passes do not all share one elapsedSeconds. -/
theorem c9_counterexample :
    (tickUniforms 0 100 100 0 (fun n => (n : ℚ))).1.iTime ≠
      (tickUniforms 0 100 100 0 (fun n => (n : ℚ))).2.1.iTime := by
  norm_num [tickUniforms, passUniforms]

/-- Claim C9, amended: within one tick all three passes receive the same
iFrame and the same iResolution, but iTime is recomputed per pass from
the live clock: consecutive passes differ in iTime by exactly the clock
drift between their readings divided by 1000, so they agree only when
the clock does not advance. -/
theorem c9_uniforms_per_pass (startTime : ℚ) (w h frame : Nat) (clock : Nat → ℚ) :
    (tickUniforms startTime w h frame clock).1.iFrame = frame ∧
    (tickUniforms startTime w h frame clock).2.1.iFrame = frame ∧
    (tickUniforms startTime w h frame clock).2.2.iFrame = frame ∧
    (tickUniforms startTime w h frame clock).1.iResW = (w : ℚ) ∧
    (tickUniforms startTime w h frame clock).2.1.iResW = (w : ℚ) ∧
    (tickUniforms startTime w h frame clock).2.2.iResW = (w : ℚ) ∧
    (tickUniforms startTime w h frame clock).1.iResH = (h : ℚ) ∧
    (tickUniforms startTime w h frame clock).2.1.iResH = (h : ℚ) ∧
    (tickUniforms startTime w h frame clock).2.2.iResH = (h : ℚ) ∧
    (tickUniforms startTime w h frame clock).1.iTime -
      (tickUniforms startTime w h frame clock).2.1.iTime =
        (clock 0 - clock 1) / 1000 ∧
    (tickUniforms startTime w h frame clock).2.1.iTime -
      (tickUniforms startTime w h frame clock).2.2.iTime =
        (clock 1 - clock 2) / 1000 := by
  refine ⟨rfl, rfl, rfl, rfl, rfl, rfl, rfl, rfl, rfl, ?_, ?_⟩ <;>
    · simp only [tickUniforms, passUniforms]
      ring

/-! ## Transition fade (startTransition, handleTransition, lines 1225-1256) -/

/-- The fixed delay before the transition starts, in ms. -/
def transitionStart : ℚ := 5000

/-- The fade duration, in ms. -/
def transitionDuration : ℚ := 1500

/-- The progress computed by the startTransition interval callback:
min of (elapsed - transitionStart) / transitionDuration and 1. -/
def transitionProgress (elapsedMs : ℚ) : ℚ :=
  min ((elapsedMs - transitionStart) / transitionDuration) 1

/-- The presentation state written by handleTransition: canvas opacity
and the logo overlay opacity, blur (px) and scale. -/
structure OverlayState where
  canvasOpacity : ℚ
  logoOpacity : ℚ
  logoBlur : ℚ
  logoScale : ℚ
  deriving DecidableEq, Repr

/-- handleTransition(progress): the canvas opacity becomes
1 - min(progress / 0.6, 1); past progress 0.4 the logo fade fraction is
(progress - 0.4) / 0.6 and drives opacity 1 - fade, blur fade * 5 px and
scale 1 + fade * 0.2; at or below 0.4 the logo fields are untouched. -/
def handleTransition (progress : ℚ) (s : OverlayState) : OverlayState :=
  let bgFade := min (progress / (3 / 5)) 1
  let s1 := { s with canvasOpacity := 1 - bgFade }
  if progress > 2 / 5 then
    let logoFade := (progress - 2 / 5) / (3 / 5)
    { s1 with
      logoOpacity := 1 - logoFade
      logoBlur := logoFade * 5
      logoScale := 1 + logoFade * (1 / 5) }
  else s1

/-- The oscillatory horizontal offset handleTransition writes into the
logo transform past progress 0.4: sin(fade * pi * 4) * fade * 10 px,
zero otherwise. -/
noncomputable def glitchOffset (progress : ℚ) : ℝ :=
  if progress > 2 / 5 then
    Real.sin ((((progress - 2 / 5) / (3 / 5) : ℚ) : ℝ) * Real.pi * 4) *
      (((progress - 2 / 5) / (3 / 5) : ℚ) : ℝ) * 10
  else 0

/-- The overlay state when the fade begins: canvas and logo fully
opaque, no blur, unit scale. -/
def fadeStartOverlay : OverlayState :=
  { canvasOpacity := 1, logoOpacity := 1, logoBlur := 0, logoScale := 1 }

/-- Claim C7, counterexample: at progress 1 the logo blur written by
handleTransition is 5 px, not zero, so the overlay does not reach the
claimed blur-free terminal state. -/
theorem c7_counterexample :
    (handleTransition 1 fadeStartOverlay).logoBlur ≠ 0 := by
  norm_num [handleTransition, fadeStartOverlay]

/-- Claim C7, amended: the overlay opacity is untouched (hence stays 1)
for progress at most 0.4, equals 1 - (progress - 0.4) / 0.6 past 0.4,
is monotonically non-increasing, and at progress 1 the opacity is 0 and
the oscillatory offset vanishes; the blur however ends at its maximum
5 px, not at zero. -/
theorem c7_overlay_fade (p q : ℚ) (s : OverlayState) :
    (p ≤ 2 / 5 → (handleTransition p s).logoOpacity = s.logoOpacity) ∧
    (2 / 5 < p → (handleTransition p s).logoOpacity = 1 - (p - 2 / 5) / (3 / 5)) ∧
    (s.logoOpacity = 1 → p ≤ q → (handleTransition q s).logoOpacity ≤
      (handleTransition p s).logoOpacity) ∧
    (handleTransition 1 s).logoOpacity = 0 ∧
    glitchOffset 1 = 0 ∧
    (handleTransition 1 s).logoBlur = 5 := by
  have hoff : glitchOffset 1 = 0 := by
    have h1 : ((((1 : ℚ) - 2 / 5) / (3 / 5) : ℚ) : ℝ) = 1 := by norm_num
    rw [glitchOffset, if_pos (by norm_num)]
    rw [h1]
    have h2 : (1 : ℝ) * Real.pi * 4 = ((4 : ℤ) : ℝ) * Real.pi := by push_cast; ring
    rw [h2, Real.sin_int_mul_pi]
    ring
  refine ⟨?_, ?_, ?_, ?_, hoff, ?_⟩
  · intro hp
    rw [handleTransition, if_neg (by simpa using not_lt.mpr hp)]
  · intro hp
    rw [handleTransition, if_pos (by simpa using hp)]
  · intro hs hpq
    by_cases hp : 2 / 5 < p
    · have hq : 2 / 5 < q := lt_of_lt_of_le hp hpq
      rw [handleTransition, if_pos (by simpa using hq),
        handleTransition, if_pos (by simpa using hp)]
      simp only
      have hmono : (p - 2 / 5) / (3 / 5) ≤ (q - 2 / 5) / (3 / 5) :=
        (div_le_div_iff_of_pos_right (by norm_num)).mpr (by linarith)
      linarith
    · by_cases hq : 2 / 5 < q
      · rw [handleTransition, if_pos (by simpa using hq),
          handleTransition, if_neg (by simpa using hp)]
        simp only [hs]
        have h0 : (0 : ℚ) ≤ (q - 2 / 5) / (3 / 5) := by
          apply div_nonneg (by linarith) (by norm_num)
        linarith
      · rw [handleTransition, if_neg (by simpa using hq),
          handleTransition, if_neg (by simpa using hp)]
  · rw [handleTransition, if_pos (by norm_num)]
    norm_num
  · rw [handleTransition, if_pos (by norm_num)]
    norm_num

/-- Witness for C7 at concrete progress values. -/
theorem c7_overlay_fade_witness :
    (handleTransition (1 / 5) fadeStartOverlay).logoOpacity =
      fadeStartOverlay.logoOpacity ∧
    (handleTransition (7 / 10) fadeStartOverlay).logoOpacity =
      1 - ((7 / 10 : ℚ) - 2 / 5) / (3 / 5) ∧
    (handleTransition (7 / 10) fadeStartOverlay).logoOpacity ≤
      (handleTransition (1 / 5) fadeStartOverlay).logoOpacity :=
  ⟨(c7_overlay_fade (1 / 5) (7 / 10) fadeStartOverlay).1 (by norm_num),
   (c7_overlay_fade (7 / 10) 1 fadeStartOverlay).2.1 (by norm_num),
   (c7_overlay_fade (1 / 5) (7 / 10) fadeStartOverlay).2.2.1 rfl (by norm_num)⟩

/-! ## Finalization (complete, lines 1292-1319; destroy, lines 1321-1340) -/

/-- The GPU resources held by the loader: how many programs,
framebuffers and textures are live, and whether the vertex draw buffer
is live. -/
structure GpuRes where
  programs : Nat
  framebuffers : Nat
  textures : Nat
  drawBuffer : Bool
  deriving DecidableEq, Repr

/-- The GPU resource bundle after a full release. -/
def releasedGpu : GpuRes :=
  { programs := 0, framebuffers := 0, textures := 0, drawBuffer := false }

/-- The loader state touched by the finalization paths: scheduler flag,
DOM locks and elements, completion signalling counters, and the GPU
resources. -/
structure AppState where
  isRunning : Bool
  bodyLoadingClass : Bool
  scrollLocked : Bool
  listenersAttached : Bool
  canvasAttached : Bool
  logoAttached : Bool
  hasOnComplete : Bool
  onCompleteCalls : Nat
  completeEvents : Nat
  gpu : GpuRes
  deriving DecidableEq, Repr

/-- complete(): stop the scheduler, drop the loading class, restore the
scroll lock, detach the resize listeners, remove the canvas and the logo
from the page, invoke onComplete when set, and dispatch the
shaderLoaderComplete event.  It touches no GPU resource and performs no
already-completed check. -/
def complete (s : AppState) : AppState :=
  { s with
    isRunning := false
    bodyLoadingClass := false
    scrollLocked := false
    listenersAttached := false
    canvasAttached := false
    logoAttached := false
    onCompleteCalls := s.onCompleteCalls + (if s.hasOnComplete then 1 else 0)
    completeEvents := s.completeEvents + 1 }

/-- destroy(): stop the scheduler, delete the three programs, all
framebuffers, all textures and the draw buffer, and remove the canvas
and logo.  It is defined by the source but never invoked by the
completion path. -/
def destroy (s : AppState) : AppState :=
  { s with
    isRunning := false
    gpu := releasedGpu
    canvasAttached := false
    logoAttached := false }

/-- A loader state at the moment the transition reaches progress 1 on a
fully capable pipeline: three programs, three framebuffers, three
textures and the draw buffer live, callback set, nothing signalled yet. -/
def exampleApp : AppState :=
  { isRunning := true
    bodyLoadingClass := true
    scrollLocked := true
    listenersAttached := true
    canvasAttached := true
    logoAttached := true
    hasOnComplete := true
    onCompleteCalls := 0
    completeEvents := 0
    gpu := { programs := 3, framebuffers := 3, textures := 3, drawBuffer := true } }

/-- Claim C3, counterexample: the transition reaches progress 1 at
6500 ms, finalization (complete) runs, yet every GPU resource of the
concrete state is still live afterwards: the three programs, the three
framebuffers, the three textures and the draw buffer are not released. -/
theorem c3_counterexample :
    transitionProgress 6500 = 1 ∧
    (complete exampleApp).gpu = exampleApp.gpu ∧
    exampleApp.gpu.programs = 3 ∧
    exampleApp.gpu.framebuffers = 3 ∧
    exampleApp.gpu.textures = 3 ∧
    exampleApp.gpu.drawBuffer = true := by
  refine ⟨?_, by decide, by decide, by decide, by decide, by decide⟩
  norm_num [transitionProgress, transitionStart, transitionDuration]

/-- Claim C3, amended: finalization stops the scheduler, removes the
presentation elements, restores the scroll and loading locks and
detaches the listeners, but releases no GPU resource; the separate
destroy method, which the completion path never invokes, is the one
that releases the programs, framebuffers, textures and draw buffer. -/
theorem c3_complete_effects (s : AppState) :
    (complete s).isRunning = false ∧
    (complete s).canvasAttached = false ∧
    (complete s).logoAttached = false ∧
    (complete s).scrollLocked = false ∧
    (complete s).bodyLoadingClass = false ∧
    (complete s).listenersAttached = false ∧
    (complete s).gpu = s.gpu ∧
    (destroy s).gpu = releasedGpu := by
  simp [complete, destroy]

/-- Claim C4, counterexample: invoking the finalization path twice from
a state with a callback set invokes the callback twice and dispatches
the broadcast event twice, not exactly once. -/
theorem c4_counterexample :
    (complete (complete exampleApp)).onCompleteCalls = 2 ∧
    (complete (complete exampleApp)).completeEvents = 2 := by
  decide

/-- Claim C4, amended: complete carries no already-completed guard: each
invocation invokes the callback exactly once and dispatches the event
exactly once, so two invocations signal twice.  Only the one-shot
clearInterval in the transition driver keeps the normal path to a
single invocation. -/
theorem c4_complete_not_guarded (s : AppState) (h : s.hasOnComplete = true) :
    (complete s).onCompleteCalls = s.onCompleteCalls + 1 ∧
    (complete s).completeEvents = s.completeEvents + 1 ∧
    (complete (complete s)).onCompleteCalls = s.onCompleteCalls + 2 ∧
    (complete (complete s)).completeEvents = s.completeEvents + 2 := by
  simp [complete, h]

/-- Witness for C4 amended at the concrete pre-finalization state. -/
theorem c4_complete_not_guarded_witness :
    (complete exampleApp).onCompleteCalls = exampleApp.onCompleteCalls + 1 ∧
    (complete exampleApp).completeEvents = exampleApp.completeEvents + 1 ∧
    (complete (complete exampleApp)).onCompleteCalls = exampleApp.onCompleteCalls + 2 ∧
    (complete (complete exampleApp)).completeEvents = exampleApp.completeEvents + 2 :=
  c4_complete_not_guarded exampleApp rfl

/-! ## Path selection and fallback (init, lines 28-67; fallbackToCSS,
lines 1258-1290) -/

/-- Which presentation path init committed to. -/
inductive PathKind
  | gpu
  | fallback
  deriving DecidableEq, Repr

/-- The outcome of init: the selected path and the delay in ms after
which startTransition is scheduled on that path (both paths use
this.transitionStart). -/
structure InitOutcome where
  path : PathKind
  transitionDelayMs : ℚ
  deriving DecidableEq, Repr

/-- compileShaders(): succeeds only when all three programs compile and
link. -/
def compileShaders (okA okB okImage : Bool) : Bool := okA && okB && okImage

/-- init(): fall back when the WebGL2 context is unavailable, fall back
when compileShaders fails, otherwise run the GPU pipeline; either way
startTransition is scheduled after transitionStart ms. -/
def init (webgl2 okA okB okImage : Bool) : InitOutcome :=
  if !webgl2 then { path := PathKind.fallback, transitionDelayMs := transitionStart }
  else if !compileShaders okA okB okImage then
    { path := PathKind.fallback, transitionDelayMs := transitionStart }
  else { path := PathKind.gpu, transitionDelayMs := transitionStart }

/-- Claim C6: whenever context acquisition fails or any of the three
programs fails to compile or link, init engages the fallback path, the
fallback schedules the same transition after the same fixed 5000 ms
delay as the GPU path, and the finalization it converges on fires the
completion callback and the broadcast event. -/
theorem c6_fallback_same_contract (webgl2 okA okB okImage : Bool)
    (h : webgl2 = false ∨ compileShaders okA okB okImage = false) :
    (init webgl2 okA okB okImage).path = PathKind.fallback ∧
    (init webgl2 okA okB okImage).transitionDelayMs = 5000 ∧
    (init true true true true).path = PathKind.gpu ∧
    (init true true true true).transitionDelayMs = 5000 ∧
    ∀ s : AppState, s.hasOnComplete = true →
      (complete s).onCompleteCalls = s.onCompleteCalls + 1 ∧
      (complete s).completeEvents = s.completeEvents + 1 := by
  refine ⟨?_, ?_, by decide, by norm_num [init, compileShaders, transitionStart], ?_⟩
  · rcases h with h | h <;> cases webgl2 <;> cases okA <;> cases okB <;> cases okImage <;>
      simp_all [init, compileShaders]
  · rcases h with h | h <;> cases webgl2 <;> cases okA <;> cases okB <;> cases okImage <;>
      simp_all [init, compileShaders, transitionStart]
  · intro s hs
    simp [complete, hs]

/-- Witness for C6: a failed context acquisition engages the fallback
with the 5000 ms delay. -/
theorem c6_fallback_same_contract_witness :
    (init false true true true).path = PathKind.fallback ∧
    (init false true true true).transitionDelayMs = 5000 :=
  ⟨(c6_fallback_same_contract false true true true (Or.inl rfl)).1,
   (c6_fallback_same_contract false true true true (Or.inl rfl)).2.1⟩

end ShaderLoader
